import Mathlib

/-!
Verification of the acceptance pipeline of the yt-shorts-generator
repository.  The definitions below are a shallow embedding of the
Python sources; each definition carries a comment naming the source
location it is translated from.  External collaborator calls (OpenAI,
Pexels, ffmpeg, filesystem) are modelled by an environment `Env` that
fixes, per call site and per attempt index, whether the call returns a
value or raises an exception, exactly mirroring where the source code
catches exceptions and where it lets them propagate.
-/

set_option autoImplicit false

/-- Outcome of one external collaborator call: a returned value, or a
raised exception (network timeout, malformed response, missing
attribute, and so on). -/
inductive CallRes (α : Type) where
  | ok (a : α)
  | exc
deriving DecidableEq, Repr

/-- The pipeline stage at which an uncaught exception escapes the
controller loop of main.py generate (which has no try/except of its
own). -/
inductive Stage where
  | fetchS
  | verifyS
  | genS
  | musicS
  | auditS
deriving DecidableEq, Repr

/-- Collaborator behaviour for one invocation of the generate command.
Fields indexed by outer iteration index (0..9) and, for the inner
fetch/verify loop, the inner attempt index (0..4).

* fetchCand  : fetcher.fetch_viral_video (main.py line 133); the
  returned VideoClip fields are opaque collaborator data, so the value
  is Unit.  exc means the call raised (video_fetcher.py line 510
  raises ValueError when every topic fails, and main.py does not catch
  it).
* verify     : reviewer.verify_video_content (main.py line 137);
  ok b gives the approved boolean of the VisionVerification, exc means
  the call raised (vision_reviewer.py has no try around this call).
* genFact    : fact_gen.generate_for_video (main.py line 158); ok n
  gives the self-reported interest_score of the GeneratedFact, exc
  means the call raised (fact_generator.py lines 200-251 have no
  try/except).
* indep      : the GPT call inside fact_gen.score_fact_independently
  (fact_generator.py lines 263-307); ok n is the parsed score, exc
  means that call raised (it is caught inside the method, line 309).
* auditFrames: the frame extraction in verify_final_video
  (vision_reviewer.py line 164, outside the try); ok true means frames
  were extracted, ok false means the frames list came back empty, exc
  means extraction raised.
* auditApi   : the GPT vision call inside verify_final_video
  (vision_reviewer.py lines 209-236, inside the try); ok b is the
  parsed subject_visible verdict, exc means the call raised. -/
structure Env where
  fetchCand : Nat → Nat → CallRes Unit
  verify : Nat → Nat → CallRes Bool
  genFact : Nat → CallRes Nat
  indep : Nat → CallRes Nat
  auditFrames : Nat → CallRes Bool
  auditApi : Nat → CallRes Bool

/-- MIN_INTEREST_SCORE constant, main.py line 115. -/
def MIN_INTEREST_SCORE : Nat := 8

/-- MAX_TOPIC_ATTEMPTS constant, main.py line 116. -/
def MAX_TOPIC_ATTEMPTS : Nat := 10

/-- fact_generator.py lines 253-311, score_fact_independently: the
independent GPT scoring call is wrapped in try/except; on success the
parsed score is returned, and on any exception the method returns
fact.interest_score, i.e. the self-reported score of the generator
(line 311). -/
def score_fact_independently (api : CallRes Nat) (selfScore : Nat) : Nat :=
  match api with
  | .ok v => v
  | .exc => selfScore

/-- vision_reviewer.py lines 155-240, verify_final_video: if frame
extraction raises, the exception propagates (line 164 is outside the
try); if no frames were extracted the method returns False (line 168);
otherwise the GPT vision call runs inside a try and its verdict is
returned, with any exception mapped to True (lines 238-240, the
fail-open branch). -/
def verify_final_video (frames : CallRes Bool) (api : CallRes Bool) : CallRes Bool :=
  match frames with
  | .exc => .exc
  | .ok false => .ok false
  | .ok true =>
    match api with
    | .ok v => .ok v
    | .exc => .ok true

/-- Result of the fetch/verify inner loop, main.py lines 130-147. -/
inductive InnerRes where
  | crashFetch
  | crashVerify
  | approved
  | exhausted
deriving DecidableEq, Repr

/-- Result of the inner loop together with the number of fetch and
verify calls it made. -/
structure InnerOut where
  res : InnerRes
  fetchCalls : Nat
  verifyCalls : Nat
deriving DecidableEq, Repr

/-- main.py lines 130-147: for attempt in range(5): fetch a candidate,
verify it, break on approval.  Exceptions from either call propagate
out of the generate command (there is no surrounding try/except).
The first Nat argument is the inner attempt index, the second the
remaining fuel (started at 5). -/
def innerLoop (env : Env) (o : Nat) : Nat → Nat → InnerOut
  | _, 0 => ⟨.exhausted, 0, 0⟩
  | i, fuel + 1 =>
    match env.fetchCand o i with
    | .exc => ⟨.crashFetch, 1, 0⟩
    | .ok _ =>
      match env.verify o i with
      | .exc => ⟨.crashVerify, 1, 1⟩
      | .ok approved =>
        if approved then ⟨.approved, 1, 1⟩
        else
          let rest := innerLoop env o (i + 1) fuel
          ⟨rest.res, rest.fetchCalls + 1, rest.verifyCalls + 1⟩

/-- Classification of one outer iteration of the generate loop,
main.py lines 124-245. -/
inductive OuterRes where
  | crash (st : Stage)
  | noVideo
  | lowScore (s : Nat)
  | auditRejected (s : Nat)
  | accepted (s : Nat)
deriving DecidableEq, Repr

/-- Number of rendered artifact files this iteration leaves on disk:
an accepted render is kept (main.py line 239 break), a crash during
the final audit leaves the freshly composed file behind, and every
other exit deletes or never creates the artifact (main.py lines
242-245 unlink the rejected file before the next iteration). -/
def OuterRes.diskAfter : OuterRes → Nat
  | .accepted _ => 1
  | .crash .auditS => 1
  | _ => 0

/-- One outer iteration of main.py generate (lines 124-245), yielding
its classification and the list of gate scores at which the render
step (steps 4-5, text render plus compose) actually ran.  The music
branch mirrors main.py lines 180-185: with no_music the step is
skipped; otherwise MusicManager(clips_dir, settings.openai_api_key) is
constructed with the directory passed as api_key and the key string as
cache_dir, so cache_dir.mkdir raises AttributeError, and the
subsequently called method pick_track does not exist on MusicManager
(music_manager.py defines only get_random_track and get_local_track),
so the music step always raises and nothing catches it. -/
def outerRes (env : Env) (noMusic : Bool) (o : Nat) : OuterRes × List Nat :=
  match (innerLoop env o 0 5).res with
  | .crashFetch => (.crash .fetchS, [])
  | .crashVerify => (.crash .verifyS, [])
  | .exhausted => (.noVideo, [])
  | .approved =>
    match env.genFact o with
    | .exc => (.crash .genS, [])
    | .ok selfScore =>
      let score := score_fact_independently (env.indep o) selfScore
      if score < MIN_INTEREST_SCORE then (.lowScore score, [])
      else if noMusic then
        match verify_final_video (env.auditFrames o) (env.auditApi o) with
        | .exc => (.crash .auditS, [score])
        | .ok true => (.accepted score, [score])
        | .ok false => (.auditRejected score, [score])
      else (.crash .musicS, [])

/-- Terminal result of one whole invocation of the generate command. -/
inductive Outcome where
  | accepted
  | failed
  | crashed (st : Stage)
deriving DecidableEq, Repr

/-- Observable summary of one invocation: terminal outcome, number of
outer iterations executed, total fetch and verify calls, the gate
scores at every render event, the number of artifact files left on
disk at the end, and the maximum number of artifact files present at
any point. -/
structure RunOut where
  outcome : Outcome
  itersUsed : Nat
  totalFetch : Nat
  totalVerify : Nat
  renderScores : List Nat
  finalDisk : Nat
  maxDisk : Nat
deriving DecidableEq, Repr

/-- main.py lines 124-249: the outer loop for topic_attempt in
range(MAX_TOPIC_ATTEMPTS).  The first Nat argument is the outer index,
the second the remaining fuel (started at 10).  An uncaught exception
terminates the invocation at once; an accepted final audit breaks out
of the loop keeping the artifact; the rejected, no-video and low-score
cases continue with the next iteration; exhausting the fuel reaches
the terminal failure message of line 248. -/
def runLoop (env : Env) (noMusic : Bool) : Nat → Nat → RunOut
  | _, 0 => ⟨.failed, 0, 0, 0, [], 0, 0⟩
  | o, fuel + 1 =>
    let inn := innerLoop env o 0 5
    let st := outerRes env noMusic o
    match st.1 with
    | .crash stg =>
      ⟨.crashed stg, 1, inn.fetchCalls, inn.verifyCalls, st.2,
        OuterRes.diskAfter (.crash stg), st.2.length⟩
    | .accepted _ => ⟨.accepted, 1, inn.fetchCalls, inn.verifyCalls, st.2, 1, 1⟩
    | .noVideo | .lowScore _ | .auditRejected _ =>
      let rest := runLoop env noMusic (o + 1) fuel
      ⟨rest.outcome, rest.itersUsed + 1, inn.fetchCalls + rest.totalFetch,
        inn.verifyCalls + rest.totalVerify, st.2 ++ rest.renderScores,
        rest.finalDisk, max st.2.length rest.maxDisk⟩

/-- The generate command pipeline, main.py lines 102-249, after
configuration validation has passed. -/
def generate (env : Env) (noMusic : Bool) : RunOut :=
  runLoop env noMusic 0 MAX_TOPIC_ATTEMPTS

/-- config/settings.py lines 58-68, Settings.validate: empty strings
are the falsy values of the missing environment variables. -/
def validate (openaiKey pexelsKey pixabayKey : String) : List String :=
  (if openaiKey = "" then ["OPENAI_API_KEY not set"] else []) ++
  (if pexelsKey = "" ∧ pixabayKey = "" then
    ["At least one of PEXELS_API_KEY or PIXABAY_API_KEY required"] else [])

/-- Process exit status of the generate command, main.py lines
102-249: configuration errors are echoed and the function returns
(line 111), which under click is a normal exit with status 0; terminal
pipeline failure likewise returns normally (line 249); success returns
normally; an uncaught exception makes the Python process exit with a
non-zero status. -/
def generateExitCode (openaiKey pexelsKey pixabayKey : String)
    (env : Env) (noMusic : Bool) : Nat :=
  match validate openaiKey pexelsKey pixabayKey with
  | _ :: _ => 0
  | [] =>
    match (generate env noMusic).outcome with
    | .crashed _ => 1
    | .accepted => 0
    | .failed => 0

/-- How an invocation of the auto command ends before any pipeline
stage can run, main.py lines 282-314. -/
inductive AutoRes where
  | configExit (code : Nat)
  | nameErr
deriving DecidableEq, Repr

/-- main.py lines 297-305, the prologue of the auto command: failed
configuration validation calls sys.exit(1) (line 302); otherwise the
credentials check on line 305 evaluates the name no_upload, which is
never defined in the function (the click option parameter is named
upload), so a NameError is raised before any collaborator is
constructed, whatever the value of the upload flag. -/
def autoPrologue (cfg : List String) (_upload : Bool) : AutoRes :=
  match cfg with
  | _ :: _ => .configExit 1
  | [] => .nameErr

/-- Result of PexelsClient.download, video_fetcher.py lines 345-372:
the cache path, the file contents, the cache state after the call, and
whether a network request for the asset body was performed. -/
structure DownloadOut where
  path : String
  contents : List Nat
  cache : List (Nat × List Nat)
  networkUsed : Bool
deriving DecidableEq, Repr

/-- The cache file name self.cache_dir / f"pexels_{video_id}.mp4",
video_fetcher.py line 351. -/
def pexelsCachePath (videoId : Nat) : String :=
  "pexels_" ++ toString videoId ++ ".mp4"

/-- Lookup in the on-disk cache, modelling cache_path.exists() on the
cache directory keyed by source-assigned video id. -/
def cacheLookup (c : List (Nat × List Nat)) (k : Nat) : Option (List Nat) :=
  match c with
  | [] => none
  | (k₂, v) :: rest => if k₂ = k then some v else cacheLookup rest k

/-- video_fetcher.py lines 345-372, PexelsClient.download: if the
cache path for the video id exists the file is reused with no network
request; otherwise the body is fetched from the remote link and
written to the cache path.  remote gives the bytes the network would
return for each id. -/
def download (remote : Nat → List Nat) (cache : List (Nat × List Nat))
    (videoId : Nat) : DownloadOut :=
  match cacheLookup cache videoId with
  | some c => ⟨pexelsCachePath videoId, c, cache, false⟩
  | none =>
    let c := remote videoId
    ⟨pexelsCachePath videoId, c, (videoId, c) :: cache, true⟩

/-- Collaborator behaviour where every call succeeds on the spot:
asset approved immediately, fact self-scored 9, independent score 9,
final audit frames extracted and verdict true. -/
def happyEnv : Env :=
  ⟨fun _ _ => .ok (), fun _ _ => .ok true, fun _ => .ok 9, fun _ => .ok 9,
    fun _ => .ok true, fun _ => .ok true⟩

/-- Collaborator behaviour whose Content Verifier rejects every
candidate (returning approved = false, never raising). -/
def alwaysRejectEnv : Env :=
  { happyEnv with verify := fun _ _ => .ok false }

/-- Final audit returns false on every iteration, all other calls
succeed. -/
def envAuditReject : Env :=
  { happyEnv with auditApi := fun _ => .ok false }

/-- The vision API call inside the final audit raises on every
iteration, all other calls succeed. -/
def envAuditDown : Env :=
  { happyEnv with auditApi := fun _ => .exc }

/-- The independent scoring call raises; the generator self-reported
score is 9. -/
def envScorerDownHigh : Env :=
  { happyEnv with indep := fun _ => .exc }

/-- The independent scoring call raises; the generator self-reported
score is 5. -/
def envScorerDownLow : Env :=
  { happyEnv with genFact := fun _ => .ok 5, indep := fun _ => .exc }

/-- Independent scorer succeeds with 9 while the generator self-scored
only 2. -/
def envIndepHigh : Env :=
  { happyEnv with genFact := fun _ => .ok 2, indep := fun _ => .ok 9 }

/-- Independent scorer succeeds with 5 while the generator self-scored
9. -/
def envIndepLow : Env :=
  { happyEnv with indep := fun _ => .ok 5 }

/-- The asset fetch raises on every call. -/
def envFetchDown : Env :=
  { happyEnv with fetchCand := fun _ _ => .exc }

/-- The asset verification call raises on every call. -/
def envVerifyDown : Env :=
  { happyEnv with verify := fun _ _ => .exc }

/-- The content generation call raises on every call. -/
def envGenDown : Env :=
  { happyEnv with genFact := fun _ => .exc }

/-- The inner fetch/verify loop performs at most as many fetch calls
and verify calls as it has fuel. -/
theorem innerLoop_calls_le (env : Env) (o : Nat) (fuel : Nat) : ∀ i : Nat,
    (innerLoop env o i fuel).fetchCalls ≤ fuel ∧
    (innerLoop env o i fuel).verifyCalls ≤ fuel := by
  induction fuel with
  | zero => intro i; simp [innerLoop]
  | succ n ih =>
    intro i
    simp only [innerLoop]
    cases env.fetchCand o i with
    | exc => simp
    | ok u =>
      cases env.verify o i with
      | exc => constructor <;> simp
      | ok b =>
        cases b with
        | true => constructor <;> simp
        | false =>
          have h := ih (i + 1)
          simp only [Bool.false_eq_true, if_false]
          constructor <;> omega

/-- The outer loop executes at most as many iterations as it has
fuel. -/
theorem runLoop_iters_le (env : Env) (b : Bool) (fuel : Nat) : ∀ o : Nat,
    (runLoop env b o fuel).itersUsed ≤ fuel := by
  induction fuel with
  | zero => intro o; simp [runLoop]
  | succ n ih =>
    intro o
    simp only [runLoop]
    cases h : (outerRes env b o).1 with
    | crash stg => simp
    | accepted s => simp
    | noVideo => have := ih (o + 1); simp; omega
    | lowScore s => have := ih (o + 1); simp; omega
    | auditRejected s => have := ih (o + 1); simp; omega

/-- Every render event of one outer iteration occurs at a gate score
of at least MIN_INTEREST_SCORE, and an iteration renders at most
once. -/
theorem outerRes_renders (env : Env) (b : Bool) (o : Nat) :
    ((outerRes env b o).2.all fun s => decide (MIN_INTEREST_SCORE ≤ s)) = true ∧
    (outerRes env b o).2.length ≤ 1 := by
  unfold outerRes
  cases (innerLoop env o 0 5).res with
  | crashFetch => simp
  | crashVerify => simp
  | exhausted => simp
  | approved =>
    cases env.genFact o with
    | exc => simp
    | ok selfScore =>
      simp only []
      by_cases hs : score_fact_independently (env.indep o) selfScore <
          MIN_INTEREST_SCORE
      · simp [hs]
      · cases b with
        | false => simp [hs]
        | true =>
          cases verify_final_video (env.auditFrames o) (env.auditApi o) with
          | exc => simp [hs]; omega
          | ok v => cases v <;> simp [hs] <;> omega

/-- Across a whole run, every recorded render score meets the
threshold. -/
theorem runLoop_renders_ge (env : Env) (b : Bool) (fuel : Nat) : ∀ o : Nat,
    ((runLoop env b o fuel).renderScores.all
      fun s => decide (MIN_INTEREST_SCORE ≤ s)) = true := by
  induction fuel with
  | zero => intro o; simp [runLoop]
  | succ n ih =>
    intro o
    have hout := outerRes_renders env b o
    simp only [runLoop]
    cases h : (outerRes env b o).1 with
    | crash stg => simpa [h] using hout.1
    | accepted s => simpa [h] using hout.1
    | noVideo =>
      have := ih (o + 1)
      simp only [List.all_append]
      rw [hout.1, this]
      rfl
    | lowScore s =>
      have := ih (o + 1)
      simp only [List.all_append]
      rw [hout.1, this]
      rfl
    | auditRejected s =>
      have := ih (o + 1)
      simp only [List.all_append]
      rw [hout.1, this]
      rfl

/-- At every point of a run at most one artifact file exists. -/
theorem runLoop_maxDisk_le (env : Env) (b : Bool) (fuel : Nat) : ∀ o : Nat,
    (runLoop env b o fuel).maxDisk ≤ 1 := by
  induction fuel with
  | zero => intro o; simp [runLoop]
  | succ n ih =>
    intro o
    have hout := (outerRes_renders env b o).2
    simp only [runLoop]
    cases h : (outerRes env b o).1 with
    | crash stg => exact hout
    | accepted s => simp
    | noVideo => have := ih (o + 1); simp only []; omega
    | lowScore s => have := ih (o + 1); simp only []; omega
    | auditRejected s => have := ih (o + 1); simp only []; omega

/-- A run that ends in terminal failure leaves no artifact file on
disk. -/
theorem runLoop_failed_disk (env : Env) (b : Bool) (fuel : Nat) : ∀ o : Nat,
    (runLoop env b o fuel).outcome = .failed →
    (runLoop env b o fuel).finalDisk = 0 := by
  induction fuel with
  | zero => intro o _; simp [runLoop]
  | succ n ih =>
    intro o
    simp only [runLoop]
    cases h : (outerRes env b o).1 with
    | crash stg => intro hc; simp at hc
    | accepted s => intro hc; simp at hc
    | noVideo => exact ih (o + 1)
    | lowScore s => exact ih (o + 1)
    | auditRejected s => exact ih (o + 1)

/-- An iteration classified as a low-score rejection has its gate
score below the threshold and did not render. -/
theorem outerRes_lowScore (env : Env) (b : Bool) (o : Nat) (s : Nat) :
    (outerRes env b o).1 = .lowScore s →
    s < MIN_INTEREST_SCORE ∧ (outerRes env b o).2 = [] := by
  unfold outerRes
  cases (innerLoop env o 0 5).res with
  | crashFetch => intro h; simp at h
  | crashVerify => intro h; simp at h
  | exhausted => intro h; simp at h
  | approved =>
    cases env.genFact o with
    | exc => intro h; simp at h
    | ok selfScore =>
      simp only []
      by_cases hs : score_fact_independently (env.indep o) selfScore <
          MIN_INTEREST_SCORE
      · simp only [hs, if_true]
        intro h
        cases h
        exact ⟨hs, trivial⟩
      · cases b with
        | false => simp [hs]
        | true =>
          cases verify_final_video (env.auditFrames o) (env.auditApi o) with
          | exc => simp [hs]
          | ok v => cases v <;> simp [hs]


/-- C1: with a Content Verifier stub that always rejects, the
controller makes exactly 5 fetch/verify attempts in each of exactly 10
outer iterations and then fails terminally; in general every outer
iteration makes at most 5 fetch calls and 5 verify calls (the inner
counter restarting at 0 each iteration) and a run executes at most
MAX_TOPIC_ATTEMPTS outer iterations. -/
theorem claim_C1_retry_budget :
    (generate alwaysRejectEnv true).outcome = .failed ∧
    (generate alwaysRejectEnv true).itersUsed = MAX_TOPIC_ATTEMPTS ∧
    (generate alwaysRejectEnv true).totalFetch = 50 ∧
    (generate alwaysRejectEnv true).totalVerify = 50 ∧
    (∀ (env : Env) (b : Bool),
      (generate env b).itersUsed ≤ MAX_TOPIC_ATTEMPTS) ∧
    (∀ (env : Env) (o : Nat),
      (innerLoop env o 0 5).fetchCalls ≤ 5 ∧
      (innerLoop env o 0 5).verifyCalls ≤ 5) := by
  refine ⟨by decide, by decide, by decide, by decide, ?_, ?_⟩
  · intro env b
    exact runLoop_iters_le env b MAX_TOPIC_ATTEMPTS 0
  · intro env o
    exact innerLoop_calls_le env o 5 0

/-- C2: the render/compose step only runs with a gate score of at
least MIN_INTEREST_SCORE, and an iteration whose gate score falls
below the threshold is classified as a low-score restart that performs
no render. -/
theorem claim_C2_quality_gate :
    (∀ (env : Env) (b : Bool),
      ((generate env b).renderScores.all
        fun s => decide (MIN_INTEREST_SCORE ≤ s)) = true) ∧
    (∀ (env : Env) (b : Bool) (o s : Nat),
      (outerRes env b o).1 = .lowScore s →
      s < MIN_INTEREST_SCORE ∧ (outerRes env b o).2 = []) := by
  constructor
  · intro env b
    exact runLoop_renders_ge env b MAX_TOPIC_ATTEMPTS 0
  · intro env b o s
    exact outerRes_lowScore env b o s

/-- C2 witness: a concrete low-score iteration (independent score 5)
has its score below the threshold and renders nothing. -/
theorem claim_C2_quality_gate_witness :
    5 < MIN_INTEREST_SCORE ∧ (outerRes envIndepLow true 0).2 = [] :=
  claim_C2_quality_gate.2 envIndepLow true 0 5 (by decide)

/-- C3: at every point of any invocation at most one rendered artifact
file exists on disk, a terminally failed invocation leaves no artifact
file behind, and an audit-rejected iteration ends with zero artifact
files (the rejected file is deleted before the next outer
iteration). -/
theorem claim_C3_single_artifact :
    (∀ (env : Env) (b : Bool), (generate env b).maxDisk ≤ 1) ∧
    (∀ (env : Env) (b : Bool),
      (generate env b).outcome = .failed → (generate env b).finalDisk = 0) ∧
    (∀ s : Nat, OuterRes.diskAfter (.auditRejected s) = 0) := by
  refine ⟨?_, ?_, fun s => rfl⟩
  · intro env b
    exact runLoop_maxDisk_le env b MAX_TOPIC_ATTEMPTS 0
  · intro env b
    exact runLoop_failed_disk env b MAX_TOPIC_ATTEMPTS 0

/-- C3 witness: with a final audit that rejects every render, the run
fails terminally, never holds more than one artifact, and ends with
none on disk. -/
theorem claim_C3_single_artifact_witness :
    (generate envAuditReject true).maxDisk ≤ 1 ∧
    (generate envAuditReject true).finalDisk = 0 ∧
    OuterRes.diskAfter (.auditRejected 9) = 0 :=
  ⟨claim_C3_single_artifact.1 envAuditReject true,
    claim_C3_single_artifact.2.1 envAuditReject true (by decide),
    claim_C3_single_artifact.2.2 9⟩

/-- C4 counterexample: when the independent-scoring call raises,
score_fact_independently returns the generator self-reported score and
that value gates: with self score 9 and a failing scorer the run
renders at gate value 9 and is accepted, while the identical run whose
only difference is self score 5 renders nothing and fails.  The
self-reported score therefore is the value used for gating under
scoring failure, contrary to the claim. -/
theorem claim_C4_counterexample :
    (generate envScorerDownHigh true).renderScores = [9] ∧
    (generate envScorerDownHigh true).outcome = .accepted ∧
    (generate envScorerDownLow true).renderScores = [] ∧
    (generate envScorerDownLow true).outcome = .failed ∧
    score_fact_independently .exc 9 = 9 :=
  ⟨by decide, by decide, by decide, by decide, rfl⟩

/-- C4 amended: on a successful independent-scoring call the returned
independent score is the value gated (the self-reported score is
ignored: self score 2 with independent 9 renders, self score 9 with
independent 5 does not); on a failed call score_fact_independently
falls back to the self-reported score, which then gates. -/
theorem claim_C4_gate_score :
    (∀ v s : Nat, score_fact_independently (.ok v) s = v) ∧
    (∀ s : Nat, score_fact_independently .exc s = s) ∧
    (generate envIndepHigh true).renderScores = [9] ∧
    (generate envIndepLow true).renderScores = [] :=
  ⟨fun v _ => rfl, fun _ => rfl, by decide, by decide⟩

/-- C5: an exception inside the final-audit vision API call is treated
as approval: verify_final_video returns true, and a run whose final
audit call raises terminates accepted on that same iteration with the
artifact kept on disk. -/
theorem claim_C5_audit_fail_open :
    verify_final_video (.ok true) .exc = .ok true ∧
    (generate envAuditDown true).outcome = .accepted ∧
    (generate envAuditDown true).finalDisk = 1 ∧
    (generate envAuditDown true).itersUsed = 1 :=
  ⟨rfl, by decide, by decide, by decide⟩

/-- C6 counterexample: an exception raised by the asset-verification
call is not converted into a rejection: it terminates the whole
invocation abnormally on the first attempt of the first iteration. -/
theorem claim_C6_counterexample :
    (generate envVerifyDown true).outcome = .crashed .verifyS ∧
    (generate envVerifyDown true).itersUsed = 1 ∧
    (generate envVerifyDown true).totalVerify = 1 :=
  ⟨by decide, by decide, by decide⟩

/-- C6 amended: an exception from the independent-scoring call is
absorbed inside the scorer (falling back to the self-reported score,
here 9, so the run still completes), but an exception propagating from
the asset fetch, the asset verification, or the content generation is
uncaught and terminates the invocation abnormally. -/
theorem claim_C6_exception_policy :
    (generate envFetchDown true).outcome = .crashed .fetchS ∧
    (generate envVerifyDown true).outcome = .crashed .verifyS ∧
    (generate envGenDown true).outcome = .crashed .genS ∧
    (generate envScorerDownHigh true).outcome = .accepted ∧
    (∀ s : Nat, score_fact_independently .exc s = s) :=
  ⟨by decide, by decide, by decide, by decide, fun _ => rfl⟩

/-- C7: with music enabled the run crashes at the music step before
any render, even when every collaborator call succeeds, because
main.py calls MusicManager.pick_track, a method that does not exist
(and constructs MusicManager with swapped arguments); the same run
with the no-music flag reaches acceptance. -/
theorem claim_C7_music_crash :
    (generate happyEnv false).outcome = .crashed .musicS ∧
    (generate happyEnv false).renderScores = [] ∧
    (generate happyEnv true).outcome = .accepted :=
  ⟨by decide, by decide, by decide⟩

/-- C8: a download whose identity is already cached performs no
network request and returns the same path and the same contents as the
first download of that identity. -/
theorem claim_C8_cache_idempotent (remote : Nat → List Nat)
    (cache : List (Nat × List Nat)) (videoId : Nat) :
    (download remote (download remote cache videoId).cache videoId).networkUsed
      = false ∧
    (download remote (download remote cache videoId).cache videoId).contents
      = (download remote cache videoId).contents ∧
    (download remote (download remote cache videoId).cache videoId).path
      = (download remote cache videoId).path := by
  cases h : cacheLookup cache videoId with
  | some c => simp [download, h]
  | none => simp [download, h, cacheLookup]

/-- C9 counterexample: the generate command exits with status 0 both
when required configuration is missing and when the run ends in
terminal pipeline failure, contrary to the claimed non-zero exit
status. -/
theorem claim_C9_counterexample :
    validate "" "pexkey" "" = ["OPENAI_API_KEY not set"] ∧
    generateExitCode "" "pexkey" "" happyEnv true = 0 ∧
    generateExitCode "openaikey" "pexkey" "" alwaysRejectEnv true = 0 ∧
    (generate alwaysRejectEnv true).outcome = .failed :=
  ⟨by decide, by decide, by decide, by decide⟩

/-- C9 amended: the generate command reports configuration errors
before any collaborator call (its exit status is 0 independently of
any collaborator behaviour) and also returns status 0 on terminal
pipeline failure; only the auto command exits with status 1 on missing
configuration. -/
theorem claim_C9_exit_codes :
    (∀ (env : Env) (b : Bool), generateExitCode "" "pexkey" "" env b = 0) ∧
    generateExitCode "openaikey" "pexkey" "" alwaysRejectEnv true = 0 ∧
    (∀ u : Bool, autoPrologue (validate "" "pexkey" "") u = .configExit 1) :=
  ⟨fun _ _ => rfl, by decide, fun _ => rfl⟩

/-- C10: every invocation of the auto command that passes
configuration validation raises the unbound-name error on the
no_upload credentials check before any pipeline stage, regardless of
the upload flag. -/
theorem claim_C10_auto_name_error :
    ∀ u : Bool, autoPrologue (validate "openaikey" "pexkey" "") u = .nameErr :=
  fun _ => rfl
